import Mathlib

/-!
# Verification of the EdgeTAM-iOS conversion scripts

A shallow embedding of the six Python scripts of the EdgeTAM-iOS
repository (checkpoint-to-CoreML conversion scripts), together with
theorems settling the specification claims about them.

The scripts are sequential glue code around two external systems (the
PyTorch framework and the coremltools converter).  External library
behaviour — whether a checkpoint loads, whether a conversion succeeds,
what the model's submodules compute — is modelled by abstract
function-valued fields and boolean outcome flags; everything the
repository's own code does (branching, slicing, ordering of steps,
exit codes, file names) is embedded faithfully from the source.
-/

/-! ## Python `str.lower`

`convert_edgetam_checkpoint.py` compares `response.lower()` against
`'y'`.  Python's `str.lower` agrees with ASCII lowering on the basic
latin range, which is all that the comparison against the one-letter
string `"y"` can observe. -/

/-- Python `str.lower`, modelled characterwise by ASCII lowering
(`Char.toLower` lowers exactly the basic latin letters, as Python does
on that range). -/
def strLower (s : String) : String :=
  ⟨s.data.map Char.toLower⟩

theorem charLower_eq_y {c : Char} (h : c.toLower = 'y') : c = 'y' ∨ c = 'Y' := by
  simp only [Char.toLower] at h
  split at h
  case isTrue hc =>
    obtain ⟨h1, h2⟩ := hc
    have hc' := Char.ofNat_toNat c
    revert h hc'
    generalize c.toNat = n at h1 h2
    intro h hc'
    interval_cases n <;> subst hc' <;> revert h <;> decide
  case isFalse hc => exact Or.inl h

theorem strLower_eq_y {s : String} (h : strLower s = "y") : s = "y" ∨ s = "Y" := by
  obtain ⟨data⟩ := s
  have hd : data.map Char.toLower = ['y'] := congrArg String.data h
  cases data with
  | nil => simp at hd
  | cons c rest =>
    cases rest with
    | cons d r2 => simp at hd
    | nil =>
      have hc : c.toLower = 'y' := by simpa using hd
      rcases charLower_eq_y hc with h' | h' <;> subst h'
      · exact Or.inl rfl
      · exact Or.inr rfl

theorem strLower_ne_y {s : String} (h1 : s ≠ "y") (h2 : s ≠ "Y") :
    strLower s ≠ "y" :=
  fun h => (strLower_eq_y h).elim h1 h2

/-! ## Tensors

A PyTorch tensor, modelled as a shape together with an element
function indexed by a coordinate list.  Rational entries stand for
the floating-point values (none of the claims depends on rounding);
entries at out-of-range coordinates are irrelevant. -/

/-- A torch tensor: a shape and an element function. -/
structure Tensor where
  shape : List Nat
  data : List Nat → ℚ

/-- `torch.zeros` with the given shape. -/
def Tensor.zeros (s : List Nat) : Tensor :=
  ⟨s, fun _ => 0⟩

/-- `t[:, 0:1]` (equivalently `t[:, 0:1, :, :]` for 4-D `t`): dimension 1
is narrowed to a single index.  The element function is unchanged; only
index 0 of dimension 1 remains in range. -/
def Tensor.sliceDim1 (t : Tensor) : Tensor :=
  { shape :=
      match t.shape with
      | b :: _ :: rest => b :: 1 :: rest
      | s => s
    data := t.data }

/-! ## `EdgeTAM-iOS/export_to_coreml.py` — the three wrapper modules -/

namespace ExportToCoreml

/-- The parts of the underlying SAM/EdgeTAM model object that the three
CoreML-export wrapper classes in `EdgeTAM-iOS/export_to_coreml.py`
touch.  The model's own computations are external library code, so they
appear as abstract function-valued fields. -/
structure SamModel where
  /-- `self.model.forward_image(image)` followed by
  `backbone_out.get("backbone_fpn", [])`. -/
  forwardImage : Tensor → List Tensor
  /-- `self.model.directly_add_no_mem_embed`. -/
  directlyAddNoMemEmbed : Bool
  /-- `self.model.no_mem_embed`, a `(1, H*W, C)` tensor. -/
  noMemEmbed : Tensor
  /-- `self.model.sam_prompt_encoder(points=(coords, labels), boxes=None,
  masks=None)`, returning `(sparse_embeddings, dense_embeddings)`. -/
  samPromptEncoder : Tensor × Tensor → Tensor × Tensor
  /-- `self.model.sam_prompt_encoder.get_dense_pe()`. -/
  getDensePE : Tensor
  /-- `self.mask_decoder(image_embeddings, image_pe, sparse, dense,
  multimask_output, repeat_image, high_res_features)`, returning the
  tuple whose first two entries are `(masks, iou_pred)`. -/
  samMaskDecoder : Tensor → Tensor → Tensor → Tensor → Bool → Bool → List Tensor → Tensor × Tensor

/-- The net effect of the no-mem-embed block of
`EdgeTAMImageEncoder.forward`:
`vision_features.flatten(2).permute(2, 0, 1)`, plus
`no_mem_embed.squeeze(0)` broadcast over the batch dimension, then
`.permute(1, 2, 0).view(B, C, H, W)`.  Elementwise this adds
`no_mem_embed[0, h*W + w, c]` to `vision_features[b, c, h, w]`. -/
def addNoMemEmbed (vf : Tensor) (embed : Tensor) : Tensor :=
  { shape := vf.shape
    data := fun idx =>
      match idx, vf.shape with
      | [b, c, h, w], [_, _, _, wdim] => vf.data [b, c, h, w] + embed.data [0, h * wdim + w, c]
      | _, _ => vf.data idx }

/-- `EdgeTAMImageEncoder.forward`.  The source indexes `backbone_fpn`
at 2, 0 and 1 under the guard `len(backbone_fpn) >= 3`, so the `getD`
defaults are never read on that branch. -/
def imageEncoderForward (m : SamModel) (image : Tensor) : Tensor × Tensor × Tensor :=
  let backbone_fpn := m.forwardImage image
  if 3 ≤ backbone_fpn.length then
    let vision_features := backbone_fpn.getD 2 (Tensor.zeros [])
    let high_res_feat_0 := backbone_fpn.getD 0 (Tensor.zeros [])
    let high_res_feat_1 := backbone_fpn.getD 1 (Tensor.zeros [])
    let vision_features :=
      if m.directlyAddNoMemEmbed then addNoMemEmbed vision_features m.noMemEmbed
      else vision_features
    (vision_features, high_res_feat_0, high_res_feat_1)
  else
    let bs := image.shape.getD 0 0
    (Tensor.zeros [bs, 256, 64, 64], Tensor.zeros [bs, 32, 256, 256],
      Tensor.zeros [bs, 64, 128, 128])

/-- `EdgeTAMPromptEncoder.forward`.  The source passes only
`points=(point_coords, point_labels)` to the prompt encoder, with
`boxes=None` and `masks=None`; the wrapper's `boxes` and `mask_input`
parameters appear in its signature but are not used. -/
def promptEncoderForward (m : SamModel)
    (point_coords point_labels _boxes _mask_input : Tensor) : Tensor × Tensor :=
  m.samPromptEncoder (point_coords, point_labels)

/-- `EdgeTAMMaskDecoder.forward`.  `use_multimask` is
`multimask_output[0].item() > 0.5`; the decoder is called with the
dense positional encoding from the prompt encoder in place of the
`image_pe` input and with `repeat_image=False`; when `use_multimask`
is false both outputs are narrowed to their first channel. -/
def maskDecoderForward (m : SamModel)
    (image_embeddings _image_pe sparse_prompt_embeddings dense_prompt_embeddings
      high_res_feat_0 high_res_feat_1 multimask_output : Tensor) : Tensor × Tensor :=
  let use_multimask := (1 : ℚ)/2 < multimask_output.data [0]
  let high_res_features := [high_res_feat_0, high_res_feat_1]
  let proper_image_pe := m.getDensePE
  let sam_outputs :=
    m.samMaskDecoder image_embeddings proper_image_pe sparse_prompt_embeddings
      dense_prompt_embeddings (decide use_multimask) false high_res_features
  let masks := sam_outputs.1
  let iou_pred := sam_outputs.2
  if use_multimask then (masks, iou_pred)
  else (masks.sliceDim1, iou_pred.sliceDim1)

/-- The specification's reading of the wrapper classes ("they contain no
independent logic, branching policy, or state beyond a single hand-coded
feature-map split and a scalar multimask-output threshold comparison"),
written from the spec's words for the image-encoder wrapper: its output
is always exactly the split of the backbone FPN levels (2, 0, 1), with
no other branch and no added arithmetic. -/
def imageEncoderIsPlainSplit : Prop :=
  ∀ (m : SamModel) (image : Tensor),
    imageEncoderForward m image =
      ((m.forwardImage image).getD 2 (Tensor.zeros []),
       (m.forwardImage image).getD 0 (Tensor.zeros []),
       (m.forwardImage image).getD 1 (Tensor.zeros []))

end ExportToCoreml

/-! ## `convert_edgetam_checkpoint.py`

The script runs interactively: `main` prints an explanatory note, reads
a confirmation from standard input, and exits with status 0 if the
answer (lowercased) is not `"y"`.  Otherwise it loads the checkpoint
(exiting with status 1 from inside `load_checkpoint` if the file is
missing or `torch.load` raises), builds the torchvision stand-in model,
converts it (`convert_to_coreml` traces, converts and saves, exiting
with status 1 from inside its own handler on failure), and finally
calls `verify_model`, whose handler catches any verification error,
prints a diagnostic and returns `False`; `main` ignores that return
value and prints the success banner, so the process still ends with
status 0. -/

namespace ConvertCheckpoint

/-- The observable actions of one run, in program order. -/
inductive Event
  | printCancel
  | loadCheckpoint
  | constructModel
  | traceModel
  | convertModel
  | saveModel
  | verifyModel
  | errorDiag
  | printSuccess
deriving DecidableEq

/-- The external facts one invocation depends on: the interactive
response and whether each call into the external libraries succeeds. -/
structure Env where
  /-- the string read by `input(...)`. -/
  response : String
  /-- `os.path.exists(CHECKPOINT_PATH)`. -/
  checkpointExists : Bool
  /-- whether `torch.load` succeeds. -/
  loadOk : Bool
  /-- whether the trace/convert/save block of `convert_to_coreml`
  succeeds as a whole (on failure the block's own handler prints and
  exits; the partially completed steps inside a failing block are not
  recorded). -/
  convertOk : Bool
  /-- whether `verify_model`'s body succeeds. -/
  verifyOk : Bool
deriving DecidableEq

/-- One invocation of the script: its exit status and the events it
performs, following `main` and the module-level handler. -/
def run (e : Env) : Nat × List Event :=
  if strLower e.response ≠ "y" then
    (0, [.printCancel])
  else if e.checkpointExists = false then
    (1, [.errorDiag])
  else if e.loadOk = false then
    (1, [.errorDiag])
  else if e.convertOk = false then
    (1, [.loadCheckpoint, .constructModel, .errorDiag])
  else if e.verifyOk = false then
    (0, [.loadCheckpoint, .constructModel, .traceModel, .convertModel, .saveModel,
          .errorDiag, .printSuccess])
  else
    (0, [.loadCheckpoint, .constructModel, .traceModel, .convertModel, .saveModel,
          .verifyModel, .printSuccess])

/-- The specification's error-handling contract ("no failure mode lets
the run continue and finish with status 0"), written from the spec's
words for this script: whenever a run prints an error diagnostic, the
process terminates with a nonzero exit status. -/
def diagnosticsImplyNonzeroExit : Prop :=
  ∀ e : Env, Event.errorDiag ∈ (run e).2 → (run e).1 ≠ 0

end ConvertCheckpoint

/-! ## `edgetam_coreml_export.py`

`main` wraps everything in one `try`: `load_edgetam_model` raises
`FileNotFoundError` if the checkpoint path does not exist and re-raises
any `torch.load` failure, both caught by the top-level handler, which
prints a diagnostic and exits with status 1.  The loaded checkpoint is
then branched on by shape; `export_to_coreml` traces, converts and
saves (re-raising on failure); `verify_coreml_model` catches its own
errors and returns `False`, which `main` ignores before printing the
success banner and finishing with status 0. -/

namespace CoremlExport

/-- The warning printed when the checkpoint dict has no `'model'` key. -/
inductive Warning
  | stateDictOnly
  | unexpectedStructure
deriving DecidableEq

/-- The result of `torch.load`: either a dict (an association list from
string keys to opaque values, identified by numbers) or a non-dict
object (an opaque model, identified by a number). -/
inductive Ckpt
  | dict (entries : List (String × Nat))
  | obj (modelId : Nat)
deriving DecidableEq

/-- Outcome of the checkpoint-shape branching in `main`. -/
inductive ExtractResult
  | ok (modelId : Nat)
  | exit1 (w : Warning)
deriving DecidableEq

/-- The checkpoint-shape branching of `main`: a dict with a `'model'`
key yields that entry; a dict without one prints a warning (a distinct
one when a `'state_dict'` key is present) and exits with status 1; a
non-dict checkpoint is itself used as the model. -/
def extractModel : Ckpt → ExtractResult
  | .dict entries =>
      match entries.lookup "model" with
      | some m => .ok m
      | none =>
          if (entries.map Prod.fst).contains "state_dict" then .exit1 .stateDictOnly
          else .exit1 .unexpectedStructure
  | .obj m => .ok m

/-- Whether the checkpoint-shape branching reaches a model. -/
def modelFound : Ckpt → Bool
  | .dict entries => (entries.lookup "model").isSome
  | .obj _ => true

/-- The observable actions of one run, in program order. -/
inductive Ev
  | loadCkpt
  | warn (w : Warning)
  | traceModel
  | convertModel
  | saveModel
  | verifyDiag
  | errorDiag
  | printSuccess
deriving DecidableEq

/-- The external facts one invocation depends on. -/
structure Env where
  /-- `os.path.exists(checkpoint_path)`. -/
  checkpointExists : Bool
  /-- whether `torch.load` succeeds. -/
  loadOk : Bool
  /-- the loaded checkpoint object. -/
  ckpt : Ckpt
  /-- whether the trace/convert/save block of `export_to_coreml`
  succeeds as a whole. -/
  exportOk : Bool
  /-- whether `verify_coreml_model`'s body succeeds. -/
  verifyOk : Bool
deriving DecidableEq

/-- One invocation of the script: its exit status and the events it
performs, following `main` and its single top-level handler. -/
def run (e : Env) : Nat × List Ev :=
  if e.checkpointExists = false then
    (1, [.errorDiag])
  else if e.loadOk = false then
    (1, [.errorDiag])
  else
    match extractModel e.ckpt with
    | .exit1 w => (1, [.loadCkpt, .warn w])
    | .ok _ =>
        if e.exportOk = false then
          (1, [.loadCkpt, .errorDiag])
        else if e.verifyOk = false then
          (0, [.loadCkpt, .traceModel, .convertModel, .saveModel, .verifyDiag, .printSuccess])
        else
          (0, [.loadCkpt, .traceModel, .convertModel, .saveModel, .printSuccess])

end CoremlExport

/-! ## The six scripts: spec-level step traces and command-line flags -/

/-- The six Python scripts of the repository. -/
inductive Script
  | convertEdgetamCheckpoint
  | convertEdgetamToCoreml
  | createSimpleModel
  | edgetamCoremlExport
  | quickSetupModel
  | exportToCoreml
deriving DecidableEq

/-- The step vocabulary of the specification's pipeline description
("parse arguments → load checkpoint → construct/trace wrapper
module(s) → invoke converter → save output → optionally verify"). -/
inductive Step
  | parseArgs
  | loadCheckpoint
  | constructTrace
  | invokeConverter
  | saveOutput
  | verifyOutput
deriving DecidableEq

/-- Position of a step in the specification's pipeline order. -/
def Step.rank : Step → Nat
  | .parseArgs => 0
  | .loadCheckpoint => 1
  | .constructTrace => 2
  | .invokeConverter => 3
  | .saveOutput => 4
  | .verifyOutput => 5

/-- The sequence of spec-level steps each script performs on a fully
successful run, in program order, read off the source:

* `convert_edgetam_checkpoint.py` — no argument parsing (paths are
  module-level constants); `load_checkpoint`, build the torchvision
  stand-in, `convert_to_coreml` (trace, convert, save), `verify_model`.
* `convert_edgetam_to_coreml.py` — `argparse`, `load_sam_model`,
  `create_traced_model`, `convert_to_coreml` (convert then save),
  `verify_coreml_model`.
* `create_simple_model.py` — no argument parsing and no checkpoint:
  build `SimpleSegmentationModel`, trace, convert, save.
* `edgetam_coreml_export.py` — `argparse`, `load_edgetam_model`,
  `export_to_coreml` (trace, convert, save), `verify_coreml_model`.
* `quick_setup_model.py` — no argument parsing and no checkpoint file:
  build the pretrained torchvision model, trace, convert, save, verify.
* `EdgeTAM-iOS/export_to_coreml.py` — `argparse`, load the model from
  config and checkpoint, then for each of the three components wrap,
  trace, convert and save, and finally write `model_info.json`. -/
def scriptTrace : Script → List Step
  | .convertEdgetamCheckpoint =>
      [.loadCheckpoint, .constructTrace, .invokeConverter, .saveOutput, .verifyOutput]
  | .convertEdgetamToCoreml =>
      [.parseArgs, .loadCheckpoint, .constructTrace, .invokeConverter, .saveOutput,
        .verifyOutput]
  | .createSimpleModel =>
      [.constructTrace, .invokeConverter, .saveOutput]
  | .edgetamCoremlExport =>
      [.parseArgs, .loadCheckpoint, .constructTrace, .invokeConverter, .saveOutput,
        .verifyOutput]
  | .quickSetupModel =>
      [.constructTrace, .invokeConverter, .saveOutput, .verifyOutput]
  | .exportToCoreml =>
      [.parseArgs, .loadCheckpoint,
        .constructTrace, .invokeConverter, .saveOutput,
        .constructTrace, .invokeConverter, .saveOutput,
        .constructTrace, .invokeConverter, .saveOutput,
        .saveOutput]

/-- The specification's pipeline description, written from its words:
every step occurs (verification being explicitly optional) and the
steps appear in nondecreasing pipeline order. -/
def followsCanonicalOrder (t : List Step) : Prop :=
  Step.parseArgs ∈ t ∧ Step.loadCheckpoint ∈ t ∧ Step.constructTrace ∈ t ∧
  Step.invokeConverter ∈ t ∧ Step.saveOutput ∈ t ∧
  List.Pairwise (fun a b => a.rank ≤ b.rank) t

instance (t : List Step) : Decidable (followsCanonicalOrder t) :=
  inferInstanceAs (Decidable
    (Step.parseArgs ∈ t ∧ Step.loadCheckpoint ∈ t ∧ Step.constructTrace ∈ t ∧
      Step.invokeConverter ∈ t ∧ Step.saveOutput ∈ t ∧
      List.Pairwise (fun (a b : Step) => a.rank ≤ b.rank) t))

/-- Every occurrence of `a` comes strictly before every occurrence of
`b` in the trace `t`. -/
def allBefore (a b : Step) (t : List Step) : Prop :=
  ∀ m n : Fin t.length, t.get m = a → t.get n = b → (m : Nat) < (n : Nat)

instance (a b : Step) (t : List Step) : Decidable (allBefore a b t) :=
  inferInstanceAs (Decidable
    (∀ m n : Fin t.length, t.get m = a → t.get n = b → (m : Nat) < (n : Nat)))

/-- Every occurrence of `b` in the trace `t` has an earlier occurrence
of `a`. -/
def eachPreceded (a b : Step) (t : List Step) : Prop :=
  ∀ n : Fin t.length, t.get n = b → ∃ m : Fin t.length, (m : Nat) < (n : Nat) ∧ t.get m = a

instance (a b : Step) (t : List Step) : Decidable (eachPreceded a b t) :=
  inferInstanceAs (Decidable
    (∀ n : Fin t.length, t.get n = b →
      ∃ m : Fin t.length, (m : Nat) < (n : Nat) ∧ t.get m = a))

/-- The command-line flags each script's `argparse` parser defines
(the literal option strings from the source); three of the scripts
create no parser at all. -/
def scriptFlags : Script → List String
  | .convertEdgetamCheckpoint => []
  | .convertEdgetamToCoreml => ["--checkpoint", "--output", "--model-type", "--image-size"]
  | .createSimpleModel => []
  | .edgetamCoremlExport => ["--checkpoint", "--output", "--image-size"]
  | .quickSetupModel => []
  | .exportToCoreml => ["--sam2_cfg", "--sam2_checkpoint", "--output_dir"]

/-- The flag spellings that designate the checkpoint path across the
repository's parsers. -/
def checkpointFlagNames : List String := ["--checkpoint", "--sam2_checkpoint"]

/-- The flag spellings that designate the output path or directory
across the repository's parsers. -/
def outputFlagNames : List String := ["--output", "--output_dir"]

/-- The specification's command-line-surface description, written from
its words: the script accepts a flag for the checkpoint path and a flag
for the output path or directory. -/
def acceptsCheckpointAndOutputFlags (s : Script) : Prop :=
  (∃ f ∈ scriptFlags s, f ∈ checkpointFlagNames) ∧
  (∃ f ∈ scriptFlags s, f ∈ outputFlagNames)

instance (s : Script) : Decidable (acceptsCheckpointAndOutputFlags s) :=
  inferInstanceAs (Decidable
    ((∃ f ∈ scriptFlags s, f ∈ checkpointFlagNames) ∧
      (∃ f ∈ scriptFlags s, f ∈ outputFlagNames)))

/-! ## `EdgeTAM-iOS/export_to_coreml.py` — artifacts written by `main` -/

namespace ExportToCoreml

/-- The `metadata` dict literal written to `model_info.json` by `main`. -/
structure Metadata where
  modelName : String
  version : String
  components : List (String × String)
deriving DecidableEq

/-- The literal metadata value from the source. -/
def metadata : Metadata :=
  { modelName := "EdgeTAM"
    version := "1.0"
    components :=
      [("image_encoder", "edgetam_image_encoder.mlpackage"),
       ("prompt_encoder", "edgetam_prompt_encoder.mlpackage"),
       ("mask_decoder", "edgetam_mask_decoder.mlpackage")] }

/-- `os.path.join(dir, name)` for a directory argument without a
trailing separator, which is how `main` uses it. -/
def pathJoin (dir name : String) : String :=
  dir ++ "/" ++ name

/-- The file-system actions of `main`, in program order. -/
inductive FsEv
  | makeDir (path : String)
  | savePackage (path : String)
  | writeMetadata (path : String) (m : Metadata)
deriving DecidableEq

/-- The file-system actions of a successful run of `main` on an output
directory (`os.makedirs`, the three `mlmodel.save` calls inside the
three export helpers, then the `json.dump` of `metadata`). -/
def mainRun (outputDir : String) : List FsEv :=
  [.makeDir outputDir,
   .savePackage (pathJoin outputDir "edgetam_image_encoder.mlpackage"),
   .savePackage (pathJoin outputDir "edgetam_prompt_encoder.mlpackage"),
   .savePackage (pathJoin outputDir "edgetam_mask_decoder.mlpackage"),
   .writeMetadata (pathJoin outputDir "model_info.json") metadata]

/-- The path of a package-save action, if the action is one. -/
def savePath? : FsEv → Option String
  | .savePackage p => some p
  | _ => none

end ExportToCoreml

/-! ## Concrete fixtures used by counterexamples and witnesses -/

namespace Fixtures

open ExportToCoreml

/-- A sample high-resolution feature map. -/
def t0 : Tensor := ⟨[1, 32, 256, 256], fun _ => 2⟩

/-- A second sample high-resolution feature map. -/
def t1 : Tensor := ⟨[1, 64, 128, 128], fun _ => 3⟩

/-- A sample low-resolution feature map. -/
def t2 : Tensor := ⟨[1, 256, 64, 64], fun _ => 5⟩

/-- A sample input image. -/
def img0 : Tensor := ⟨[1, 3, 1024, 1024], fun _ => 0⟩

/-- A `(1,)` multimask flag tensor holding `1.0`. -/
def mmTrue : Tensor := ⟨[1], fun _ => 1⟩

/-- A `(1,)` multimask flag tensor holding `0.0`. -/
def mmFalse : Tensor := ⟨[1], fun _ => 0⟩

/-- A model whose backbone returns three FPN levels. -/
def sampleModel3 : SamModel :=
  { forwardImage := fun _ => [t0, t1, t2]
    directlyAddNoMemEmbed := false
    noMemEmbed := Tensor.zeros [1, 4096, 256]
    samPromptEncoder := fun p => p
    getDensePE := t2
    samMaskDecoder := fun a _ _ _ _ _ _ => (a, a) }

/-- A model whose backbone returns no FPN levels at all. -/
def sampleModel0 : SamModel :=
  { forwardImage := fun _ => []
    directlyAddNoMemEmbed := false
    noMemEmbed := Tensor.zeros [1, 4096, 256]
    samPromptEncoder := fun p => p
    getDensePE := t2
    samMaskDecoder := fun a _ _ _ _ _ _ => (a, a) }

end Fixtures

/-! ## Claims -/

open Fixtures

/-- C2: in `EdgeTAMMaskDecoder.forward`, multi-mask output is selected
exactly when the first element of the `multimask_output` tensor exceeds
0.5; when it does not, the returned masks are `masks[:, 0:1, :, :]` and
the IoU predictions `iou_pred[:, 0:1]`, so exactly one mask channel and
one IoU score are returned; when it does, the decoder outputs are
returned unsliced. -/
theorem c2_mask_decoder_threshold (m : ExportToCoreml.SamModel)
    (ie ipe sp dp h0 h1 mm : Tensor) :
    ((1 : ℚ)/2 < mm.data [0] →
      ExportToCoreml.maskDecoderForward m ie ipe sp dp h0 h1 mm =
        m.samMaskDecoder ie m.getDensePE sp dp true false [h0, h1]) ∧
    (mm.data [0] ≤ (1 : ℚ)/2 →
      ExportToCoreml.maskDecoderForward m ie ipe sp dp h0 h1 mm =
        ((m.samMaskDecoder ie m.getDensePE sp dp false false [h0, h1]).1.sliceDim1,
         (m.samMaskDecoder ie m.getDensePE sp dp false false [h0, h1]).2.sliceDim1) ∧
      (∀ b n rest,
        (m.samMaskDecoder ie m.getDensePE sp dp false false [h0, h1]).1.shape
            = b :: n :: rest →
        (ExportToCoreml.maskDecoderForward m ie ipe sp dp h0 h1 mm).1.shape
            = b :: 1 :: rest) ∧
      (∀ b n rest,
        (m.samMaskDecoder ie m.getDensePE sp dp false false [h0, h1]).2.shape
            = b :: n :: rest →
        (ExportToCoreml.maskDecoderForward m ie ipe sp dp h0 h1 mm).2.shape
            = b :: 1 :: rest)) := by
  constructor
  · intro h
    simp only [ExportToCoreml.maskDecoderForward]
    rw [if_pos h, decide_eq_true h]
  · intro h
    have hn : ¬ (1 : ℚ)/2 < mm.data [0] := not_lt.mpr h
    refine ⟨?_, ?_, ?_⟩
    · simp only [ExportToCoreml.maskDecoderForward]
      rw [if_neg hn, decide_eq_false hn]
    · intro b n rest hsh
      simp only [ExportToCoreml.maskDecoderForward]
      rw [if_neg hn, decide_eq_false hn]
      simp [Tensor.sliceDim1, hsh]
    · intro b n rest hsh
      simp only [ExportToCoreml.maskDecoderForward]
      rw [if_neg hn, decide_eq_false hn]
      simp [Tensor.sliceDim1, hsh]

/-- C2 witness: the theorem at a concrete model and concrete inputs,
once with the flag tensor holding 1.0 and once holding 0.0. -/
theorem c2_witness :
    ExportToCoreml.maskDecoderForward sampleModel3 t2 t2 t0 t1 t0 t1 mmTrue =
      sampleModel3.samMaskDecoder t2 sampleModel3.getDensePE t0 t1 true false [t0, t1] ∧
    ExportToCoreml.maskDecoderForward sampleModel3 t2 t2 t0 t1 t0 t1 mmFalse =
      ((sampleModel3.samMaskDecoder t2 sampleModel3.getDensePE t0 t1 false false
          [t0, t1]).1.sliceDim1,
       (sampleModel3.samMaskDecoder t2 sampleModel3.getDensePE t0 t1 false false
          [t0, t1]).2.sliceDim1) :=
  ⟨(c2_mask_decoder_threshold sampleModel3 t2 t2 t0 t1 t0 t1 mmTrue).1
      (by norm_num [Fixtures.mmTrue]),
   ((c2_mask_decoder_threshold sampleModel3 t2 t2 t0 t1 t0 t1 mmFalse).2
      (by norm_num [Fixtures.mmFalse])).1⟩

/-- C3 counterexample: the image-encoder wrapper is not a plain
feature-map split — on a model whose backbone yields fewer than three
FPN levels, `EdgeTAMImageEncoder.forward` takes its fallback branch and
fabricates all-zero feature maps of hard-coded shapes instead of
splitting the backbone output. -/
theorem c3_counterexample : ¬ ExportToCoreml.imageEncoderIsPlainSplit := by
  intro h
  have h2 := h sampleModel0 img0
  have h3 := congrArg (fun p => p.1.shape) h2
  simp [ExportToCoreml.imageEncoderForward, Fixtures.sampleModel0, Fixtures.img0,
    Tensor.zeros] at h3

/-- C3 (amended): the wrappers are pure forwarding except for two extra
pieces of logic in the image-encoder wrapper — when the backbone
returns at least three FPN levels and `directly_add_no_mem_embed` is
off, its output is exactly the split of levels 2, 0 and 1; when fewer
than three levels come back it instead returns all-zero tensors of
hard-coded shapes; the prompt-encoder wrapper forwards only the point
prompts; and the mask-decoder wrapper forwards to the decoder under the
scalar multimask threshold comparison. -/
theorem c3_wrappers_amended :
    (∀ (m : ExportToCoreml.SamModel) (image : Tensor),
        3 ≤ (m.forwardImage image).length → m.directlyAddNoMemEmbed = false →
        ExportToCoreml.imageEncoderForward m image =
          ((m.forwardImage image).getD 2 (Tensor.zeros []),
           (m.forwardImage image).getD 0 (Tensor.zeros []),
           (m.forwardImage image).getD 1 (Tensor.zeros []))) ∧
    (∀ (m : ExportToCoreml.SamModel) (image : Tensor),
        (m.forwardImage image).length < 3 →
        ExportToCoreml.imageEncoderForward m image =
          (Tensor.zeros [image.shape.getD 0 0, 256, 64, 64],
           Tensor.zeros [image.shape.getD 0 0, 32, 256, 256],
           Tensor.zeros [image.shape.getD 0 0, 64, 128, 128])) ∧
    (∀ (m : ExportToCoreml.SamModel) (pc pl bx mi : Tensor),
        ExportToCoreml.promptEncoderForward m pc pl bx mi =
          m.samPromptEncoder (pc, pl)) ∧
    (∀ (m : ExportToCoreml.SamModel) (ie ipe sp dp h0 h1 mm : Tensor),
        (1 : ℚ)/2 < mm.data [0] →
        ExportToCoreml.maskDecoderForward m ie ipe sp dp h0 h1 mm =
          m.samMaskDecoder ie m.getDensePE sp dp true false [h0, h1]) := by
  refine ⟨?_, ?_, fun m pc pl bx mi => rfl, ?_⟩
  · intro m image hlen hflag
    simp [ExportToCoreml.imageEncoderForward, hlen, hflag]
  · intro m image hlen
    have hn : ¬ 3 ≤ (m.forwardImage image).length := not_le.mpr hlen
    simp [ExportToCoreml.imageEncoderForward, hn]
  · intro m ie ipe sp dp h0 h1 mm h
    simp only [ExportToCoreml.maskDecoderForward]
    rw [if_pos h, decide_eq_true h]

/-- C3 witness: the amended theorem's four parts at concrete models
and inputs. -/
theorem c3_witness :
    ExportToCoreml.imageEncoderForward sampleModel3 img0 = (t2, t0, t1) ∧
    ExportToCoreml.imageEncoderForward sampleModel0 img0 =
      (Tensor.zeros [1, 256, 64, 64], Tensor.zeros [1, 32, 256, 256],
        Tensor.zeros [1, 64, 128, 128]) ∧
    ExportToCoreml.promptEncoderForward sampleModel3 t0 t1 t2 img0 = (t0, t1) ∧
    ExportToCoreml.maskDecoderForward sampleModel3 t2 t2 t0 t1 t0 t1 mmTrue =
      sampleModel3.samMaskDecoder t2 sampleModel3.getDensePE t0 t1 true false [t0, t1] :=
  ⟨c3_wrappers_amended.1 sampleModel3 img0 (by decide) rfl,
   c3_wrappers_amended.2.1 sampleModel0 img0 (by decide),
   c3_wrappers_amended.2.2.1 sampleModel3 t0 t1 t2 img0,
   c3_wrappers_amended.2.2.2 sampleModel3 t2 t2 t0 t1 t0 t1 mmTrue
     (by norm_num [Fixtures.mmTrue])⟩

/-- C9: `EdgeTAMPromptEncoder.forward` gives identical output on any
two calls agreeing on `point_coords` and `point_labels`, whatever the
`boxes` and `mask_input` arguments are: those two inputs never
influence the result. -/
theorem c9_prompt_encoder_ignores_boxes_and_mask (m : ExportToCoreml.SamModel)
    (pc pl b1 mi1 b2 mi2 : Tensor) :
    ExportToCoreml.promptEncoderForward m pc pl b1 mi1 =
      ExportToCoreml.promptEncoderForward m pc pl b2 mi2 := rfl

/-- C1 counterexample: not every failure mode ends with nonzero status —
in `convert_edgetam_checkpoint.py` a failing `verify_model` prints its
error diagnostic, returns `False`, and the run continues to the success
banner and exits with status 0 (environment: confirmation `"y"`,
checkpoint present, load and conversion succeed, verification fails). -/
theorem c1_counterexample : ¬ ConvertCheckpoint.diagnosticsImplyNonzeroExit := by
  intro h
  exact h ⟨"y", true, true, true, false⟩ (by decide) (by decide)

/-- Helper: the checkpoint-shape branching reaches a model exactly when
`modelFound` says so. -/
theorem modelFound_iff_extract (c : CoremlExport.Ckpt) :
    CoremlExport.modelFound c = true ↔
      ∃ k, CoremlExport.extractModel c = CoremlExport.ExtractResult.ok k := by
  rcases c with entries | mid
  · simp only [CoremlExport.modelFound, CoremlExport.extractModel]
    cases hl : List.lookup "model" entries with
    | none =>
      simp only [hl, Option.isSome_none]
      constructor
      · intro h
        exact absurd h (by decide)
      · rintro ⟨k, hk⟩
        split at hk <;> cases hk
    | some mv => simp [hl]
  · simp [CoremlExport.modelFound, CoremlExport.extractModel]

/-- C1 (amended): load and conversion failures do terminate the runs
with status 1 (though they are caught in helper functions, not only at
top level), but verification failures do not affect the exit status:
`convert_edgetam_checkpoint.py` exits 0 exactly when the confirmation
is declined or when loading and conversion succeed, and
`edgetam_coreml_export.py` exits 0 exactly when loading, model
extraction and export succeed — in both, independently of whether
verification failed. -/
theorem c1_exit_status_amended :
    (∀ e : ConvertCheckpoint.Env,
        ((ConvertCheckpoint.run e).1 = 0 ↔
          strLower e.response ≠ "y" ∨
            (e.checkpointExists = true ∧ e.loadOk = true ∧ e.convertOk = true))) ∧
    (∀ e : CoremlExport.Env,
        ((CoremlExport.run e).1 = 0 ↔
          e.checkpointExists = true ∧ e.loadOk = true ∧
            CoremlExport.modelFound e.ckpt = true ∧ e.exportOk = true)) := by
  constructor
  · rintro ⟨r, ce, lo, co, vo⟩
    by_cases h1 : strLower r = "y" <;>
      cases ce <;> cases lo <;> cases co <;> cases vo <;>
        simp [ConvertCheckpoint.run, h1]
  · rintro ⟨ce, lo, ck, eo, vo⟩
    cases hme : CoremlExport.extractModel ck with
    | exit1 w =>
      have hmf : CoremlExport.modelFound ck = false := by
        cases hb : CoremlExport.modelFound ck
        · rfl
        · obtain ⟨k, hk⟩ := (modelFound_iff_extract ck).mp hb
          rw [hme] at hk
          cases hk
      cases ce <;> cases lo <;> cases eo <;> cases vo <;>
        simp [CoremlExport.run, hme, hmf]
    | ok mid2 =>
      have hmf : CoremlExport.modelFound ck = true :=
        (modelFound_iff_extract ck).mpr ⟨mid2, hme⟩
      cases ce <;> cases lo <;> cases eo <;> cases vo <;>
        simp [CoremlExport.run, hme, hmf]

/-- Helper: when the shape branching exits, the run stops with status 1
right after the load and the warning. -/
theorem run_of_extract_exit1 (e : CoremlExport.Env) (w : CoremlExport.Warning)
    (hce : e.checkpointExists = true) (hlo : e.loadOk = true)
    (hme : CoremlExport.extractModel e.ckpt = CoremlExport.ExtractResult.exit1 w) :
    CoremlExport.run e = (1, [CoremlExport.Ev.loadCkpt, CoremlExport.Ev.warn w]) := by
  simp [CoremlExport.run, hce, hlo, hme]

/-- C4: the checkpoint-shape branching of `edgetam_coreml_export.py`:
a dict containing the key `'model'` yields that entry as the model to
convert; a dict without it (including one containing only
`'state_dict'`) makes the script print a warning and exit with status 1
without converting or saving anything; a non-dict checkpoint is itself
used as the model. -/
theorem c4_checkpoint_shape (entries : List (String × Nat)) (k : Nat)
    (e : CoremlExport.Env) :
    (∀ mv, entries.lookup "model" = some mv →
        CoremlExport.extractModel (.dict entries) = .ok mv) ∧
    (entries.lookup "model" = none →
        (∃ w, CoremlExport.extractModel (.dict entries) = .exit1 w) ∧
        (e.ckpt = .dict entries → e.checkpointExists = true → e.loadOk = true →
          (CoremlExport.run e).1 = 1 ∧
          CoremlExport.Ev.convertModel ∉ (CoremlExport.run e).2 ∧
          CoremlExport.Ev.saveModel ∉ (CoremlExport.run e).2)) ∧
    CoremlExport.extractModel (.obj k) = .ok k := by
  refine ⟨?_, ?_, rfl⟩
  · intro mv hmv
    simp [CoremlExport.extractModel, hmv]
  · intro hnone
    constructor
    · simp only [CoremlExport.extractModel, hnone]
      split <;> exact ⟨_, rfl⟩
    · intro hck hce hlo
      obtain ⟨w, hw⟩ : ∃ w, CoremlExport.extractModel e.ckpt
          = CoremlExport.ExtractResult.exit1 w := by
        rw [hck]
        simp only [CoremlExport.extractModel, hnone]
        split <;> exact ⟨_, rfl⟩
      rw [run_of_extract_exit1 e w hce hlo hw]
      simp

/-- C4 witness: the theorem's three cases at concrete checkpoints — a
dict with a `'model'` entry, a dict with only `'state_dict'` (in an
environment where the file exists and loads), and a bare object. -/
theorem c4_witness :
    CoremlExport.extractModel (.dict [("model", 7)]) = .ok 7 ∧
    (CoremlExport.run ⟨true, true, .dict [("state_dict", 5)], true, true⟩).1 = 1 ∧
    CoremlExport.extractModel (.obj 3) = .ok 3 := by
  refine ⟨?_, ?_, ?_⟩
  · exact (c4_checkpoint_shape [("model", 7)] 3
      ⟨true, true, .dict [("state_dict", 5)], true, true⟩).1 7 (by decide)
  · exact (((c4_checkpoint_shape [("state_dict", 5)] 3
      ⟨true, true, .dict [("state_dict", 5)], true, true⟩).2.1 (by decide)).2
        rfl rfl rfl).1
  · exact (c4_checkpoint_shape [("state_dict", 5)] 3
      ⟨true, true, .dict [("state_dict", 5)], true, true⟩).2.2

/-- C7 counterexample: with a missing checkpoint file but a declined
interactive confirmation, `convert_edgetam_checkpoint.py` exits with
status 0, not 1 (the confirmation gate runs before the existence
check). -/
theorem c7_counterexample :
    (⟨"n", false, true, true, true⟩ : ConvertCheckpoint.Env).checkpointExists = false ∧
    (ConvertCheckpoint.run ⟨"n", false, true, true, true⟩).1 = 0 := by decide

/-- C7 (amended): when the checkpoint file does not exist, neither
script traces, converts or writes any output; `edgetam_coreml_export.py`
always terminates with status 1, and `convert_edgetam_checkpoint.py`
terminates with status 1 provided the interactive confirmation was
answered affirmatively (a declined confirmation exits with status 0
before the existence check, still without side effects). -/
theorem c7_missing_checkpoint_amended :
    (∀ e : ConvertCheckpoint.Env, e.checkpointExists = false →
        ConvertCheckpoint.Event.traceModel ∉ (ConvertCheckpoint.run e).2 ∧
        ConvertCheckpoint.Event.convertModel ∉ (ConvertCheckpoint.run e).2 ∧
        ConvertCheckpoint.Event.saveModel ∉ (ConvertCheckpoint.run e).2 ∧
        (strLower e.response = "y" → (ConvertCheckpoint.run e).1 = 1)) ∧
    (∀ e : CoremlExport.Env, e.checkpointExists = false →
        (CoremlExport.run e).1 = 1 ∧
        CoremlExport.Ev.traceModel ∉ (CoremlExport.run e).2 ∧
        CoremlExport.Ev.convertModel ∉ (CoremlExport.run e).2 ∧
        CoremlExport.Ev.saveModel ∉ (CoremlExport.run e).2) := by
  constructor
  · intro e he
    by_cases h1 : strLower e.response = "y" <;>
      simp [ConvertCheckpoint.run, h1, he]
  · intro e he
    simp [CoremlExport.run, he]

/-- C7 witness: the amended theorem at concrete environments with a
missing checkpoint (one per script, the interactive one confirmed). -/
theorem c7_witness :
    (ConvertCheckpoint.run ⟨"y", false, true, true, true⟩).1 = 1 ∧
    (CoremlExport.run ⟨false, true, .obj 0, true, true⟩).1 = 1 :=
  ⟨(c7_missing_checkpoint_amended.1 ⟨"y", false, true, true, true⟩ rfl).2.2.2 (by decide),
   (c7_missing_checkpoint_amended.2 ⟨false, true, .obj 0, true, true⟩ rfl).1⟩

/-- C10: in `convert_edgetam_checkpoint.py`, any interactive response
other than `'y'` or `'Y'` makes the script print the cancellation
message and exit with status 0 before the checkpoint is loaded, before
any model is constructed, traced or converted, and before any file is
written. -/
theorem c10_decline_cancels (e : ConvertCheckpoint.Env)
    (h1 : e.response ≠ "y") (h2 : e.response ≠ "Y") :
    ConvertCheckpoint.run e = (0, [ConvertCheckpoint.Event.printCancel]) := by
  have h3 : strLower e.response ≠ "y" := strLower_ne_y h1 h2
  simp [ConvertCheckpoint.run, h3]

/-- C10 witness: the theorem at the concrete response `"n"` (with the
checkpoint present and every library call able to succeed). -/
theorem c10_witness :
    ConvertCheckpoint.run ⟨"n", true, true, true, true⟩ =
      (0, [ConvertCheckpoint.Event.printCancel]) :=
  c10_decline_cancels ⟨"n", true, true, true, true⟩ (by decide) (by decide)

/-- C1 witness: the amended characterisation applied at a concrete
environment in which verification fails — the run still exits 0. -/
theorem c1_witness :
    (ConvertCheckpoint.run ⟨"y", true, true, true, false⟩).1 = 0 :=
  (c1_exit_status_amended.1 ⟨"y", true, true, true, false⟩).mpr
    (Or.inr ⟨rfl, rfl, rfl⟩)

/-- C5 counterexample: the pipeline description fails on the code in
two ways — `create_simple_model.py` performs neither argument parsing
nor checkpoint loading, and in `EdgeTAM-iOS/export_to_coreml.py` the
construct/trace → convert → save sequence repeats once per component,
so the run returns to an earlier step after saving. -/
theorem c5_counterexample :
    ¬ followsCanonicalOrder (scriptTrace .createSimpleModel) ∧
    ¬ followsCanonicalOrder (scriptTrace .exportToCoreml) := by decide

/-- C5 (amended): in every script the steps that do occur respect the
pipeline's relative order — argument parsing (where present) precedes
everything else, checkpoint loading (where present) precedes all
construction, conversion and saving, every converter invocation is
preceded by a construct/trace, every save by a converter invocation,
and verification (where present) follows every save; but three scripts
parse no arguments, two of those load no checkpoint file, and the
component-wise exporter revisits the construct/convert/save steps once
per component. -/
theorem c5_step_order_amended (s : Script) :
    allBefore .parseArgs .loadCheckpoint (scriptTrace s) ∧
    allBefore .parseArgs .constructTrace (scriptTrace s) ∧
    allBefore .parseArgs .invokeConverter (scriptTrace s) ∧
    allBefore .parseArgs .saveOutput (scriptTrace s) ∧
    allBefore .parseArgs .verifyOutput (scriptTrace s) ∧
    allBefore .loadCheckpoint .constructTrace (scriptTrace s) ∧
    allBefore .loadCheckpoint .invokeConverter (scriptTrace s) ∧
    allBefore .loadCheckpoint .saveOutput (scriptTrace s) ∧
    eachPreceded .constructTrace .invokeConverter (scriptTrace s) ∧
    eachPreceded .invokeConverter .saveOutput (scriptTrace s) ∧
    allBefore .saveOutput .verifyOutput (scriptTrace s) := by
  cases s <;> decide

/-- C5 witness: the amended ordering applied to the component-wise
exporter, picking out that each of its saves follows a converter
invocation. -/
theorem c5_witness :
    eachPreceded .invokeConverter .saveOutput (scriptTrace .exportToCoreml) :=
  (c5_step_order_amended .exportToCoreml).2.2.2.2.2.2.2.2.2.1

/-- C6: on a successful run of `EdgeTAM-iOS/export_to_coreml.py`, the
`model_info.json` metadata written into the output directory (as the
last file-system action, after the three package saves) has exactly the
component file names `edgetam_image_encoder.mlpackage`,
`edgetam_prompt_encoder.mlpackage` and `edgetam_mask_decoder.mlpackage`
— the same names under which the three packages were saved into that
directory. -/
theorem c6_metadata_lists_saved_components (d : String) :
    ((ExportToCoreml.mainRun d).filterMap ExportToCoreml.savePath? =
      (ExportToCoreml.metadata.components.map Prod.snd).map (ExportToCoreml.pathJoin d)) ∧
    ExportToCoreml.metadata.components.map Prod.snd =
      ["edgetam_image_encoder.mlpackage", "edgetam_prompt_encoder.mlpackage",
        "edgetam_mask_decoder.mlpackage"] ∧
    (ExportToCoreml.mainRun d).getLast? =
      some (.writeMetadata (ExportToCoreml.pathJoin d "model_info.json")
        ExportToCoreml.metadata) :=
  ⟨rfl, rfl, rfl⟩

/-- C8 counterexample: `create_simple_model.py` defines no command-line
parser at all, so it accepts neither a checkpoint flag nor an output
flag. -/
theorem c8_counterexample :
    ¬ acceptsCheckpointAndOutputFlags .createSimpleModel := by decide

/-- C8 (amended): exactly the three argparse-based scripts
(`convert_edgetam_to_coreml.py`, `edgetam_coreml_export.py` and
`EdgeTAM-iOS/export_to_coreml.py`) accept command-line flags for the
checkpoint path and the output path or directory;
`convert_edgetam_checkpoint.py`, `create_simple_model.py` and
`quick_setup_model.py` accept no flags and use hard-coded locations. -/
theorem c8_flags_amended (s : Script) :
    acceptsCheckpointAndOutputFlags s ↔
      (s = .convertEdgetamToCoreml ∨ s = .edgetamCoremlExport ∨ s = .exportToCoreml) := by
  cases s <;> decide

/-- C8 witness: the amended characterisation applied at a concrete
script with flags. -/
theorem c8_witness : acceptsCheckpointAndOutputFlags .edgetamCoremlExport :=
  (c8_flags_amended .edgetamCoremlExport).mpr (Or.inr (Or.inl rfl))

/-- C9 witness: the prompt-encoder independence applied at a concrete
model and two concrete pairs of ignored arguments. -/
theorem c9_witness :
    ExportToCoreml.promptEncoderForward sampleModel3 t0 t1 t2 img0 =
      ExportToCoreml.promptEncoderForward sampleModel3 t0 t1 img0 t2 :=
  c9_prompt_encoder_ignores_boxes_and_mask sampleModel3 t0 t1 t2 img0 img0 t2
